import Mathlib

/-
Verification of the portfolio-builder core: drift analysis, strategy
adjustment, trade planning, greedy rebalance matching, and the swap
execution pipeline with result aggregation.

All dollar and percentage quantities are modelled as rationals (ℚ); the
source operates on JS numbers, and every claim below concerns exact
arithmetic relationships that are independent of floating-point rounding.
JS Math.round is modelled by jsRound, JS Math.floor by Int.floor.
Statuses that the source represents as string literals are modelled as
String values so that the embedding mirrors the source records directly.
-/

/-- Model of JS Math.round: round half toward positive infinity. -/
def jsRound (q : ℚ) : ℤ := ⌊q + 1 / 2⌋

-- ============================================================================
-- sdk/types.ts: token mint constants (COMMON_TOKENS)
-- ============================================================================

namespace COMMON_TOKENS

def USDC : String := "EPjFWdd5AufqSSqeM2qN1xzybapC8G4wEGGkZwyTDt1v"

def USDT : String := "Es9vMFrzaCERmJfrF4H2FYD4KCoNkY11McCe8BenwNYB"

def SOL : String := "So11111111111111111111111111111111111111112"

def WBTC : String := "3NZ9JMVBmGAqocybic2c7LQCJScmgsAZ6vQqTDzcqmJh"

end COMMON_TOKENS

-- ============================================================================
-- sdk/types.ts: portfolio data model
-- ============================================================================

/-- A token balance entry of a Portfolio (fields the core reads). -/
structure TokenBalance where
  mint : String
  valueUsd : ℚ
deriving DecidableEq, Repr

/-- A stock balance entry of a Portfolio (field the core reads). -/
structure StockBalance where
  valueUsd : ℚ
deriving DecidableEq, Repr

/-- PortfolioAllocation: percentage of value per asset category. -/
structure PortfolioAllocation where
  stablecoins : ℚ
  sol : ℚ
  otherTokens : ℚ
  stocks : ℚ
deriving DecidableEq, Repr

/-- Portfolio: the fields of sdk/types.ts Portfolio that the core reads. -/
structure Portfolio where
  tokens : List TokenBalance
  stocks : List StockBalance
  totalValueUsd : ℚ
  allocation : PortfolioAllocation
deriving DecidableEq, Repr

/-- Mints counted as stablecoins (the local stablecoinMints list). -/
def stablecoinMints : List String := [COMMON_TOKENS.USDC, COMMON_TOKENS.USDT]

-- ============================================================================
-- Drift Analyzer (PortfolioClient.calculateAllocation / compareToTarget)
-- ============================================================================

/-- calculateAllocation: portfolio allocation percentages, with the
guard returning all zeros when totalValueUsd is 0. -/
def calculateAllocation (tokens : List TokenBalance) (stocks : List StockBalance)
    (totalValueUsd : ℚ) : PortfolioAllocation :=
  if totalValueUsd = 0 then
    { stablecoins := 0, sol := 0, otherTokens := 0, stocks := 0 }
  else
    let stablecoinValue :=
      ((tokens.filter (fun t => stablecoinMints.contains t.mint)).map
        (fun t => t.valueUsd)).sum
    let solValue :=
      ((tokens.filter (fun t => t.mint = COMMON_TOKENS.SOL)).map
        (fun t => t.valueUsd)).sum
    let otherTokenValue :=
      ((tokens.filter (fun t =>
        ¬ stablecoinMints.contains t.mint ∧ t.mint ≠ COMMON_TOKENS.SOL)).map
        (fun t => t.valueUsd)).sum
    let stockValue := (stocks.map (fun s => s.valueUsd)).sum
    { stablecoins := stablecoinValue / totalValueUsd * 100,
      sol := solValue / totalValueUsd * 100,
      otherTokens := otherTokenValue / totalValueUsd * 100,
      stocks := stockValue / totalValueUsd * 100 }

/-- Builds the allocation field the way getPortfolio does before returning
the Portfolio record. -/
def mkPortfolio (tokens : List TokenBalance) (stocks : List StockBalance)
    (totalValueUsd : ℚ) : Portfolio :=
  { tokens := tokens, stocks := stocks, totalValueUsd := totalValueUsd,
    allocation := calculateAllocation tokens stocks totalValueUsd }

/-- One row of the compareToTarget result. -/
structure Comparison where
  assetType : String
  targetPct : ℚ
  actualPct : ℚ
  deviationPct : ℚ
deriving DecidableEq, Repr

/-- compareToTarget: the four fixed category rows, deviation is
actual minus target. -/
def compareToTarget (portfolio : Portfolio)
    (targetAllocations : PortfolioAllocation) : List Comparison :=
  let allocation := portfolio.allocation
  [ { assetType := "stablecoins", targetPct := targetAllocations.stablecoins,
      actualPct := allocation.stablecoins,
      deviationPct := allocation.stablecoins - targetAllocations.stablecoins },
    { assetType := "sol", targetPct := targetAllocations.sol,
      actualPct := allocation.sol,
      deviationPct := allocation.sol - targetAllocations.sol },
    { assetType := "otherTokens", targetPct := targetAllocations.otherTokens,
      actualPct := allocation.otherTokens,
      deviationPct := allocation.otherTokens - targetAllocations.otherTokens },
    { assetType := "stocks", targetPct := targetAllocations.stocks,
      actualPct := allocation.stocks,
      deviationPct := allocation.stocks - targetAllocations.stocks } ]

/-- calculateHealthScore: fold the absolute deviations, normalize by the
maximum total deviation of 200, round to an integer. -/
def calculateHealthScore (comparison : List Comparison) : ℤ :=
  let totalDeviation := comparison.foldl (fun sum c => sum + |c.deviationPct|) 0
  let score := max 0 (100 - totalDeviation / 2)
  jsRound score

/-- Total absolute deviation of a comparison list (specification form of
the fold inside calculateHealthScore). -/
def totalAbsDeviation (comparison : List Comparison) : ℚ :=
  (comparison.map (fun c => |c.deviationPct|)).sum

-- ============================================================================
-- agent/types.ts and agent/strategies: strategies and profiles
-- ============================================================================

/-- Sum of the four category percentages. -/
def PortfolioAllocation.total (a : PortfolioAllocation) : ℚ :=
  a.stablecoins + a.sol + a.otherTokens + a.stocks

inductive RiskTolerance where
  | conservative
  | moderate
  | aggressive
deriving DecidableEq, Repr

inductive InvestmentGoal where
  | growth
  | income
  | preservation
  | speculation
deriving DecidableEq, Repr

inductive TimeHorizon where
  | short
  | medium
  | long
deriving DecidableEq, Repr

/-- StrategyDefinition (recommendedAssets carries no data the core reads,
so it is not modelled). -/
structure StrategyDefinition where
  name : String
  description : String
  riskLevel : RiskTolerance
  allocations : PortfolioAllocation
deriving DecidableEq, Repr

/-- UserProfile fields the core reads. -/
structure UserProfile where
  riskTolerance : RiskTolerance
  investmentGoals : List InvestmentGoal
  timeHorizon : TimeHorizon
  totalInvestment : ℚ
deriving DecidableEq, Repr

/-- Conservative strategy: 50 stablecoins, 15 SOL, 5 other, 30 stocks. -/
def conservativeStrategy : StrategyDefinition :=
  { name := "Conservative",
    description := "Low-risk portfolio focused on capital preservation with emphasis on stablecoins and blue-chip stocks",
    riskLevel := RiskTolerance.conservative,
    allocations := { stablecoins := 50, sol := 15, otherTokens := 5, stocks := 30 } }

/-- Moderate strategy: 25 stablecoins, 30 SOL, 15 other, 30 stocks. -/
def moderateStrategy : StrategyDefinition :=
  { name := "Moderate",
    description := "Balanced portfolio with mix of growth and stability, suitable for medium-term investors",
    riskLevel := RiskTolerance.moderate,
    allocations := { stablecoins := 25, sol := 30, otherTokens := 15, stocks := 30 } }

/-- Aggressive strategy: 10 stablecoins, 40 SOL, 30 other, 20 stocks. -/
def aggressiveStrategy : StrategyDefinition :=
  { name := "Aggressive",
    description := "High-risk portfolio focused on maximum growth, suitable for long-term investors with high risk tolerance",
    riskLevel := RiskTolerance.aggressive,
    allocations := { stablecoins := 10, sol := 40, otherTokens := 30, stocks := 20 } }

/-- getStrategy: select the base strategy by risk level. -/
def getStrategy (riskLevel : RiskTolerance) : StrategyDefinition :=
  match riskLevel with
  | RiskTolerance.conservative => conservativeStrategy
  | RiskTolerance.moderate => moderateStrategy
  | RiskTolerance.aggressive => aggressiveStrategy

-- ============================================================================
-- PortfolioBuilderAgent.adjustStrategyForProfile / analyzeProfile
-- ============================================================================

/-- The allocation arithmetic of adjustStrategyForProfile: sequential
adjustments for time horizon and goals, then the renormalization step
that rescales by 100 / total when the sum left 100.  (When total is 0 the
source would divide by zero; ℚ division returns 0 there.  That branch is
unreachable from a base strategy summing to 100, since every adjustment
is net zero.) -/
def adjustAllocations (a0 : PortfolioAllocation) (profile : UserProfile) : PortfolioAllocation :=
  let a1 :=
    match profile.timeHorizon with
    | TimeHorizon.short =>
        { a0 with stablecoins := a0.stablecoins + 10,
                  sol := a0.sol - 5,
                  otherTokens := a0.otherTokens - 5 }
    | TimeHorizon.long =>
        { a0 with stablecoins := a0.stablecoins - 5, sol := a0.sol + 5 }
    | TimeHorizon.medium => a0
  let a2 :=
    if profile.investmentGoals.contains InvestmentGoal.income then
      { a1 with stablecoins := a1.stablecoins + 5,
                otherTokens := a1.otherTokens - 5 }
    else a1
  let a3 :=
    if profile.investmentGoals.contains InvestmentGoal.speculation then
      { a2 with otherTokens := a2.otherTokens + 10,
                stablecoins := a2.stablecoins - 10 }
    else a2
  let total := a3.stablecoins + a3.sol + a3.otherTokens + a3.stocks
  if total ≠ 100 then
    let factor := 100 / total
    { stablecoins := a3.stablecoins * factor,
      sol := a3.sol * factor,
      otherTokens := a3.otherTokens * factor,
      stocks := a3.stocks * factor }
  else a3

/-- adjustStrategyForProfile: copy the strategy, replace its allocations. -/
def adjustStrategyForProfile (strategy : StrategyDefinition)
    (profile : UserProfile) : StrategyDefinition :=
  { strategy with allocations := adjustAllocations strategy.allocations profile }

/-- analyzeProfile: base strategy from risk tolerance, then adjustment. -/
def analyzeProfile (profile : UserProfile) : StrategyDefinition :=
  adjustStrategyForProfile (getStrategy profile.riskTolerance) profile

-- ============================================================================
-- Helper lemmas
-- ============================================================================

theorem foldl_absdev (l : List Comparison) (a : ℚ) :
    l.foldl (fun sum c => sum + |c.deviationPct|) a = a + totalAbsDeviation l := by
  induction l generalizing a with
  | nil => simp [totalAbsDeviation]
  | cons c t ih => simp [totalAbsDeviation, ih]; ring

theorem calculateHealthScore_eq (comparison : List Comparison) :
    calculateHealthScore comparison
      = jsRound (max 0 (100 - totalAbsDeviation comparison / 2)) := by
  unfold calculateHealthScore
  rw [foldl_absdev]
  norm_num

theorem adjustAllocations_total (a0 : PortfolioAllocation) (profile : UserProfile)
    (h : a0.total = 100) : (adjustAllocations a0 profile).total = 100 := by
  rcases a0 with ⟨st, so, ot, sk⟩
  unfold PortfolioAllocation.total at h
  simp only at h
  unfold adjustAllocations PortfolioAllocation.total
  cases profile.timeHorizon <;>
    cases hInc : profile.investmentGoals.contains InvestmentGoal.income <;>
    cases hSpec : profile.investmentGoals.contains InvestmentGoal.speculation <;>
    simp only [hInc, hSpec, if_true, if_false, Bool.false_eq_true] <;>
    split_ifs with hne <;>
    simp only at hne ⊢ <;>
    first
      | linarith
      | (exact absurd (by ring_nf; ring_nf at h; linarith) hne)

-- ============================================================================
-- Claim theorems C7, C8, C9, C10
-- ============================================================================

/-- C7: for every list of deviation percentages the health score equals
max(0, 100 − (Σ|deviationPct|)/2) rounded to the nearest integer; it is
exactly 100 when every deviation is 0, and it is monotonically
non-increasing as the total absolute deviation grows. -/
theorem C7_health_score :
    (∀ comparison : List Comparison,
      calculateHealthScore comparison
        = jsRound (max 0 (100 - totalAbsDeviation comparison / 2)))
    ∧ (∀ comparison : List Comparison,
        (∀ c ∈ comparison, c.deviationPct = 0) →
        calculateHealthScore comparison = 100)
    ∧ ∀ comparison1 comparison2 : List Comparison,
        totalAbsDeviation comparison1 ≤ totalAbsDeviation comparison2 →
        calculateHealthScore comparison2 ≤ calculateHealthScore comparison1 := by
  refine ⟨calculateHealthScore_eq, ?_, ?_⟩
  · intro comparison hzero
    rw [calculateHealthScore_eq]
    have : totalAbsDeviation comparison = 0 := by
      unfold totalAbsDeviation
      rw [List.sum_eq_zero]
      intro x hx
      simp only [List.mem_map] at hx
      obtain ⟨c, hc, rfl⟩ := hx
      rw [hzero c hc]
      simp
    rw [this]
    norm_num [jsRound]
  · intro c1 c2 hle
    rw [calculateHealthScore_eq, calculateHealthScore_eq]
    apply Int.floor_le_floor
    have : (100 : ℚ) - totalAbsDeviation c2 / 2 ≤ 100 - totalAbsDeviation c1 / 2 := by
      linarith
    have hmax := max_le_max (le_refl (0 : ℚ)) this
    linarith

/-- C7 witness: the health score of a concrete all-zero deviation list is
100, and a list with larger total deviation scores no higher. -/
theorem C7_health_score_witness :
    calculateHealthScore
        [{ assetType := "sol", targetPct := 50, actualPct := 50, deviationPct := 0 }] = 100
    ∧ calculateHealthScore
        [{ assetType := "sol", targetPct := 50, actualPct := 60, deviationPct := 10 }]
      ≤ calculateHealthScore
        [{ assetType := "sol", targetPct := 50, actualPct := 50, deviationPct := 0 }] :=
  ⟨C7_health_score.2.1 _ (by decide),
   C7_health_score.2.2 _ _ (by norm_num [totalAbsDeviation])⟩

/-- C8: with totalValueUsd equal to 0 the drift analysis is total (the
division is guarded): every category's current percentage is 0 and each
category's deviation is the negation of its target percentage. -/
theorem C8_zero_total_value (tokens : List TokenBalance)
    (stocks : List StockBalance) (target : PortfolioAllocation) :
    calculateAllocation tokens stocks 0 =
      { stablecoins := 0, sol := 0, otherTokens := 0, stocks := 0 }
    ∧ (compareToTarget (mkPortfolio tokens stocks 0) target).map
        (fun c => c.actualPct) = [0, 0, 0, 0]
    ∧ (compareToTarget (mkPortfolio tokens stocks 0) target).map
        (fun c => c.deviationPct)
        = [-target.stablecoins, -target.sol, -target.otherTokens, -target.stocks] := by
  refine ⟨rfl, ?_, ?_⟩ <;>
    simp [compareToTarget, mkPortfolio, calculateAllocation]

/-- C9: when the base strategy's category percentages sum to 100, the
profile-adjusted strategy's percentages again sum to 100 (hence within
1e-6 of 100): every adjustment is net zero and the renormalization
branch restores the sum otherwise. -/
theorem C9_adjusted_total (strategy : StrategyDefinition) (profile : UserProfile)
    (h : strategy.allocations.total = 100) :
    |(adjustStrategyForProfile strategy profile).allocations.total - 100|
      ≤ 1 / 1000000 := by
  have hsum : (adjustStrategyForProfile strategy profile).allocations.total = 100 :=
    adjustAllocations_total strategy.allocations profile h
  rw [hsum]
  norm_num

/-- C9 witness: the moderate base strategy sums to 100 and a concrete
profile adjustment keeps the sum within 1e-6 of 100. -/
theorem C9_adjusted_total_witness :
    moderateStrategy.allocations.total = 100
    ∧ |(adjustStrategyForProfile moderateStrategy
          { riskTolerance := RiskTolerance.moderate,
            investmentGoals := [InvestmentGoal.speculation],
            timeHorizon := TimeHorizon.long,
            totalInvestment := 1000 }).allocations.total - 100| ≤ 1 / 1000000 :=
  ⟨by norm_num [moderateStrategy, PortfolioAllocation.total],
   C9_adjusted_total moderateStrategy _
     (by norm_num [moderateStrategy, PortfolioAllocation.total])⟩

/-- The profile of claim C10: conservative risk tolerance, short time
horizon, income among the goals. -/
def profileC10 : UserProfile :=
  { riskTolerance := RiskTolerance.conservative,
    investmentGoals := [InvestmentGoal.income],
    timeHorizon := TimeHorizon.short,
    totalInvestment := 1000 }

/-- C10: for the conservative/short/income profile the adjusted strategy
has otherTokens −5 (negative) while the four percentages still sum to
100, so output percentages are not guaranteed to lie in [0, 100]. -/
theorem C10_negative_other_tokens :
    (analyzeProfile profileC10).allocations.otherTokens = -5
    ∧ (analyzeProfile profileC10).allocations.total = 100
    ∧ (analyzeProfile profileC10).allocations.otherTokens < 0 := by
  have hInc : ([InvestmentGoal.income].contains InvestmentGoal.income) = true := rfl
  have hSpec : ([InvestmentGoal.income].contains InvestmentGoal.speculation) = false := rfl
  have hall : (analyzeProfile profileC10).allocations =
      { stablecoins := 65, sol := 10, otherTokens := -5, stocks := 30 } := by
    unfold analyzeProfile adjustStrategyForProfile adjustAllocations getStrategy
    simp only [profileC10, conservativeStrategy, hInc, hSpec, if_true,
      Bool.false_eq_true, if_false]
    norm_num [PortfolioAllocation.mk.injEq]
  rw [hall]
  refine ⟨rfl, ?_, by norm_num⟩
  norm_num [PortfolioAllocation.total]

-- ============================================================================
-- agent/types.ts: planner configuration and plan records
-- ============================================================================

/-- PlannedTrade: one trade of an execution plan. -/
structure PlannedTrade where
  type : String
  fromAsset : Option String
  toAsset : String
  amountUsd : ℚ
  priority : ℕ
  reason : String
deriving DecidableEq, Repr

/-- PortfolioBuilderConfig. -/
structure PortfolioBuilderConfig where
  minTradeSize : ℚ
  maxSlippageBps : ℚ
  rebalanceThresholdPct : ℚ
  autoExecute : Bool
  includeStocks : Bool
  dryRun : Bool
deriving DecidableEq, Repr

/-- DEFAULT_CONFIG of the portfolio builder. -/
def DEFAULT_CONFIG : PortfolioBuilderConfig :=
  { minTradeSize := 10, maxSlippageBps := 300, rebalanceThresholdPct := 5,
    autoExecute := false, includeStocks := false, dryRun := true }

/-- ExecutionPlan. -/
structure ExecutionPlan where
  strategy : StrategyDefinition
  currentPortfolio : Portfolio
  trades : List PlannedTrade
  totalTradeValueUsd : ℚ
  estimatedFeesUsd : ℚ
  warnings : List String
deriving DecidableEq, Repr

-- ============================================================================
-- PortfolioBuilderAgent.createExecutionPlan
-- ============================================================================

/-- createExecutionPlan: compute target and current value per category,
then emit one trade per category whose absolute dollar delta reaches
minTradeSize, in source order (SOL, other tokens, stocks) with the
priority counter equal to the number of trades already emitted.  The
portfolio and strategy are the values the source fetches before this
arithmetic. -/
def createExecutionPlan (portfolio : Portfolio) (strategy : StrategyDefinition)
    (config : PortfolioBuilderConfig) : ExecutionPlan :=
  let totalValue := portfolio.totalValueUsd
  let targetSol := strategy.allocations.sol / 100 * totalValue
  let targetOtherTokens := strategy.allocations.otherTokens / 100 * totalValue
  let targetStocks := strategy.allocations.stocks / 100 * totalValue
  let currentSol :=
    ((portfolio.tokens.filter (fun t => t.mint = COMMON_TOKENS.SOL)).map
      (fun t => t.valueUsd)).sum
  let currentOtherTokens :=
    ((portfolio.tokens.filter (fun t =>
      ¬ stablecoinMints.contains t.mint ∧ t.mint ≠ COMMON_TOKENS.SOL)).map
      (fun t => t.valueUsd)).sum
  let currentStocks := (portfolio.stocks.map (fun s => s.valueUsd)).sum
  let deltaSol := targetSol - currentSol
  let deltaOtherTokens := targetOtherTokens - currentOtherTokens
  let deltaStocks := targetStocks - currentStocks
  let trades0 : List PlannedTrade := []
  let trades1 :=
    if |deltaSol| ≥ config.minTradeSize then
      trades0 ++ [if deltaSol > 0 then
        { type := "swap", fromAsset := some COMMON_TOKENS.USDC,
          toAsset := COMMON_TOKENS.SOL, amountUsd := deltaSol,
          priority := trades0.length, reason := "Increase SOL allocation" }
      else
        { type := "swap", fromAsset := some COMMON_TOKENS.SOL,
          toAsset := COMMON_TOKENS.USDC, amountUsd := |deltaSol|,
          priority := trades0.length, reason := "Decrease SOL allocation" }]
    else trades0
  let trades2 :=
    if |deltaOtherTokens| ≥ config.minTradeSize then
      trades1 ++ [if deltaOtherTokens > 0 then
        { type := "swap", fromAsset := some COMMON_TOKENS.USDC,
          toAsset := COMMON_TOKENS.WBTC, amountUsd := deltaOtherTokens,
          priority := trades1.length, reason := "Increase other tokens allocation" }
      else
        { type := "swap", fromAsset := some COMMON_TOKENS.WBTC,
          toAsset := COMMON_TOKENS.USDC, amountUsd := |deltaOtherTokens|,
          priority := trades1.length, reason := "Decrease other tokens allocation" }]
    else trades1
  let trades3 :=
    if config.includeStocks ∧ |deltaStocks| ≥ config.minTradeSize then
      trades2 ++ [if deltaStocks > 0 then
        { type := "stock_buy", fromAsset := none, toAsset := "AAPL",
          amountUsd := deltaStocks, priority := trades2.length,
          reason := "Increase stocks allocation" }
      else
        { type := "stock_sell", fromAsset := none, toAsset := "AAPL",
          amountUsd := |deltaStocks|, priority := trades2.length,
          reason := "Decrease stocks allocation" }]
    else trades2
  let warnings0 : List String := []
  let warnings1 :=
    if ¬ config.includeStocks ∧ strategy.allocations.stocks > 0 then
      warnings0 ++
        ["Stock trading is disabled. Stock allocation target will not be achieved."]
    else warnings0
  let warnings2 :=
    if portfolio.totalValueUsd < 100 then
      warnings1 ++
        ["Portfolio value is very low. Some trades may not be possible due to minimum sizes."]
    else warnings1
  { strategy := strategy, currentPortfolio := portfolio, trades := trades3,
    totalTradeValueUsd := (trades3.map (fun t => t.amountUsd)).sum,
    estimatedFeesUsd := trades3.length * (1 / 2),
    warnings := warnings2 }

theorem min_le_of_abs_ge {m d : ℚ} (h : |d| ≥ m) (hd : d > 0) : m ≤ d := by
  rwa [abs_of_pos hd] at h

theorem createExecutionPlan_minTradeSize (portfolio : Portfolio)
    (strategy : StrategyDefinition) (config : PortfolioBuilderConfig) :
    ∀ t ∈ (createExecutionPlan portfolio strategy config).trades,
      config.minTradeSize ≤ t.amountUsd := by
  intro t ht
  unfold createExecutionPlan at ht
  simp only [List.nil_append] at ht
  split_ifs at ht <;>
    simp only [List.mem_append, List.mem_singleton, List.not_mem_nil,
      false_or, or_false] at ht <;>
    (try rcases ht with ht | ht) <;>
    (try rcases ht with ht | ht) <;>
    first
      | exact ht.elim
      | (subst ht
         dsimp only
         first
           | assumption
           | exact And.right (by assumption)
           | exact min_le_of_abs_ge (by assumption) (by assumption)
           | exact min_le_of_abs_ge (And.right (by assumption)) (by assumption))
      | (dsimp only
         first
           | assumption
           | exact And.right (by assumption)
           | exact min_le_of_abs_ge (by assumption) (by assumption)
           | exact min_le_of_abs_ge (And.right (by assumption)) (by assumption))

/-- A portfolio worth 10000 USD: 5100 in USDC, 4900 in SOL.  Against a
50/50 stablecoin/SOL target both deviations are 1 percentage point,
inside the default 5 percent threshold, yet the dollar delta of 100
reaches the default minTradeSize of 10. -/
def portfolioC3 : Portfolio :=
  mkPortfolio
    [ { mint := COMMON_TOKENS.USDC, valueUsd := 5100 },
      { mint := COMMON_TOKENS.SOL, valueUsd := 4900 } ]
    [] 10000

/-- A 50/50 stablecoin/SOL strategy used with portfolioC3. -/
def strategyC3 : StrategyDefinition :=
  { name := "Custom", description := "Even split", riskLevel := RiskTolerance.moderate,
    allocations := { stablecoins := 50, sol := 50, otherTokens := 0, stocks := 0 } }

theorem portfolioC3_allocation :
    portfolioC3.allocation = { stablecoins := 51, sol := 49, otherTokens := 0, stocks := 0 } := by
  unfold portfolioC3 mkPortfolio calculateAllocation stablecoinMints
  simp only [List.filter_cons, List.filter_nil, List.contains,
    COMMON_TOKENS.USDC, COMMON_TOKENS.USDT, COMMON_TOKENS.SOL]
  simp
  norm_num [PortfolioAllocation.mk.injEq]

/-- C3 counterexample: createExecutionPlan emits a 100 USD trade for
portfolioC3 against strategyC3 under the default configuration, although
every category deviation has absolute value at most 1, strictly inside
the configured rebalance threshold of 5.  The threshold is never
consulted by createExecutionPlan. -/
theorem C3_counterexample :
    (createExecutionPlan portfolioC3 strategyC3 DEFAULT_CONFIG).trades =
      [{ type := "swap", fromAsset := some COMMON_TOKENS.USDC,
         toAsset := COMMON_TOKENS.SOL, amountUsd := 100, priority := 0,
         reason := "Increase SOL allocation" }]
    ∧ (compareToTarget portfolioC3 strategyC3.allocations).map
        (fun c => |c.deviationPct|) = [1, 1, 0, 0]
    ∧ (1 : ℚ) < DEFAULT_CONFIG.rebalanceThresholdPct
    ∧ (0 : ℚ) < DEFAULT_CONFIG.rebalanceThresholdPct := by
  refine ⟨?_, ?_, by norm_num [DEFAULT_CONFIG], by norm_num [DEFAULT_CONFIG]⟩
  · unfold createExecutionPlan portfolioC3 mkPortfolio strategyC3 DEFAULT_CONFIG
      stablecoinMints
    simp only [List.filter_cons, List.filter_nil, List.contains,
      COMMON_TOKENS.USDC, COMMON_TOKENS.USDT, COMMON_TOKENS.SOL,
      COMMON_TOKENS.WBTC]
    simp
    norm_num
  · rw [compareToTarget]
    rw [portfolioC3_allocation]
    simp only [strategyC3]
    norm_num

-- ============================================================================
-- agent/claude-agent.ts: portfolio state, token table, rebalance matcher
-- ============================================================================

/-- Holding entry of PortfolioState. -/
structure Holding where
  symbol : String
  mint : String
  amount : ℚ
  valueUsd : ℚ
  percentage : ℚ
deriving DecidableEq, Repr

/-- PortfolioState of the autonomous manager. -/
structure PortfolioState where
  totalValueUsd : ℚ
  holdings : List Holding
deriving DecidableEq, Repr

/-- TOKEN_INFO metadata row.  The source USDT row reads TOKENS.USDT, a
key absent from the TOKENS table, so that mint field is undefined at
runtime (modelled as none). -/
structure TokenInfoData where
  mint : Option String
  decimals : ℕ
  priceUsd : Option ℚ
deriving DecidableEq, Repr

/-- TOKEN_INFO lookup table (1.12 = 28/25, 1.04 = 26/25). -/
def TOKEN_INFO (symbol : String) : Option TokenInfoData :=
  if symbol = "SOL" then
    some { mint := some "So11111111111111111111111111111111111111112",
           decimals := 9, priceUsd := some 180 }
  else if symbol = "USDC" then
    some { mint := some "EPjFWdd5AufqSSqeM2qN1xzybapC8G4wEGGkZwyTDt1v",
           decimals := 6, priceUsd := some 1 }
  else if symbol = "USDY" then
    some { mint := some "A1KLoBrKBde8Ty9qtNQUtq3C2ortoC3u7twggz7sEto6",
           decimals := 6, priceUsd := some (28 / 25) }
  else if symbol = "EURC" then
    some { mint := some "HzwqbKZw8HxMN6bF2yFZNrht3c2iXXzpKcFu7uBEDKtr",
           decimals := 6, priceUsd := some (26 / 25) }
  else if symbol = "USDT" then
    some { mint := none, decimals := 6, priceUsd := some 1 }
  else none

/-- Entry of the overweight working array. -/
structure OverweightEntry where
  symbol : String
  excessUsd : ℚ
  mint : Option String
  decimals : ℕ
deriving DecidableEq, Repr

/-- Entry of the underweight working array. -/
structure UnderweightEntry where
  symbol : String
  deficitUsd : ℚ
  mint : Option String
deriving DecidableEq, Repr

/-- RebalanceAction.  The source record carries the raw integer token
amount (floored, stringified) and a reason string interpolating the
matched tradeUsd; the model keeps the computed tradeUsd value itself
next to the raw amount. -/
structure RebalanceAction where
  type : String
  fromSymbol : String
  toSymbol : String
  amount : ℤ
  tradeUsd : ℚ
deriving DecidableEq, Repr

/-- The currentPct read for a symbol: the found holding's percentage or
0 when the symbol is not held (the source writes holding?.percentage
with a falsy-default of 0). -/
def currentPctOf (state : PortfolioState) (symbol : String) : ℚ :=
  ((state.holdings.find? (fun h => h.symbol = symbol)).map
    (fun h => h.percentage)).getD 0

/-- The currentValueUsd read for a symbol, defaulting to 0 likewise. -/
def currentValueOf (state : PortfolioState) (symbol : String) : ℚ :=
  ((state.holdings.find? (fun h => h.symbol = symbol)).map
    (fun h => h.valueUsd)).getD 0

/-- The partition loop of calculateRebalanceActions: walk the target
allocation entries in order and push overweight/underweight entries,
skipping symbols without TOKEN_INFO metadata. -/
def findOverUnder (targetAllocation : List (String × ℚ)) (state : PortfolioState)
    (threshold minTrade : ℚ) : List OverweightEntry × List UnderweightEntry :=
  match targetAllocation with
  | [] => ([], [])
  | (symbol, targetPct) :: rest =>
    let currentPct := currentPctOf state symbol
    let currentValueUsd := currentValueOf state symbol
    let targetValueUsd := targetPct / 100 * state.totalValueUsd
    let diff := currentValueUsd - targetValueUsd
    let tail := findOverUnder rest state threshold minTrade
    if diff > minTrade ∧ currentPct - targetPct > threshold then
      match TOKEN_INFO symbol with
      | some info =>
        ({ symbol := symbol, excessUsd := diff, mint := info.mint,
           decimals := info.decimals } :: tail.1, tail.2)
      | none => tail
    else if diff < -minTrade ∧ targetPct - currentPct > threshold then
      match TOKEN_INFO symbol with
      | some info =>
        (tail.1, { symbol := symbol, deficitUsd := -diff, mint := info.mint } :: tail.2)
      | none => tail
    else tail

/-- The inner matching loop: one overweight entry against the
underweight array, with both remaining amounts decremented in place;
pairs with either side below minTrade are skipped. -/
def matchUnders (minTrade : ℚ) (over : OverweightEntry) :
    List UnderweightEntry →
      OverweightEntry × List UnderweightEntry × List RebalanceAction
  | [] => (over, [], [])
  | under :: rest =>
    if over.excessUsd < minTrade ∨ under.deficitUsd < minTrade then
      let r := matchUnders minTrade over rest
      (r.1, under :: r.2.1, r.2.2)
    else
      let tradeUsd := min over.excessUsd under.deficitUsd
      let price0 := ((TOKEN_INFO over.symbol).bind (fun i => i.priceUsd)).getD 0
      let price := if price0 = 0 then 1 else price0
      let tokenAmount := tradeUsd / price
      let rawAmount : ℤ := ⌊tokenAmount * (10 : ℚ) ^ over.decimals⌋
      let act : RebalanceAction :=
        { type := "sell", fromSymbol := over.symbol, toSymbol := under.symbol,
          amount := rawAmount, tradeUsd := tradeUsd }
      let over2 := { over with excessUsd := over.excessUsd - tradeUsd }
      let under2 := { under with deficitUsd := under.deficitUsd - tradeUsd }
      let r := matchUnders minTrade over2 rest
      (r.1, under2 :: r.2.1, act :: r.2.2)

/-- The outer matching loop over the overweight array. -/
def matchOvers (minTrade : ℚ) :
    List OverweightEntry → List UnderweightEntry →
      List UnderweightEntry × List RebalanceAction
  | [], unders => (unders, [])
  | over :: rest, unders =>
    let r := matchUnders minTrade over unders
    let r2 := matchOvers minTrade rest r.2.1
    (r2.1, r.2.2 ++ r2.2)

/-- calculateRebalanceActions: partition then greedy matching.  The
threshold and minTrade arguments are the configured
rebalanceThresholdPct (default 5) and minTradeUsd (default 0.50). -/
def calculateRebalanceActions (targetAllocation : List (String × ℚ))
    (state : PortfolioState) (threshold minTrade : ℚ) : List RebalanceAction :=
  let oversUnders := findOverUnder targetAllocation state threshold minTrade
  (matchOvers minTrade oversUnders.1 oversUnders.2).2

/-- Total overweight excess of a partition. -/
def sumExcess (l : List OverweightEntry) : ℚ := (l.map (fun o => o.excessUsd)).sum

/-- Total underweight deficit of a partition. -/
def sumDeficit (l : List UnderweightEntry) : ℚ := (l.map (fun u => u.deficitUsd)).sum

/-- Total matched trade size of an action list. -/
def sumTradeUsd (l : List RebalanceAction) : ℚ := (l.map (fun a => a.tradeUsd)).sum

theorem matchUnders_excess (m : ℚ) (over : OverweightEntry)
    (unders : List UnderweightEntry) :
    (matchUnders m over unders).1.excessUsd
      = over.excessUsd - sumTradeUsd (matchUnders m over unders).2.2 := by
  induction unders generalizing over with
  | nil => simp [matchUnders, sumTradeUsd]
  | cons under rest ih =>
    rw [matchUnders]
    split_ifs with h
    · simpa [sumTradeUsd] using ih over
    · simp only [sumTradeUsd, List.map_cons, List.sum_cons]
      have := ih { over with excessUsd := over.excessUsd - min over.excessUsd under.deficitUsd }
      simp only [sumTradeUsd] at this
      simp only [this]
      ring

theorem matchUnders_deficit (m : ℚ) (over : OverweightEntry)
    (unders : List UnderweightEntry) :
    sumDeficit (matchUnders m over unders).2.1
      = sumDeficit unders - sumTradeUsd (matchUnders m over unders).2.2 := by
  induction unders generalizing over with
  | nil => simp [matchUnders, sumDeficit, sumTradeUsd]
  | cons under rest ih =>
    rw [matchUnders]
    split_ifs with h
    · simp only [sumDeficit, sumTradeUsd, List.map_cons, List.sum_cons]
      have := ih over
      simp only [sumDeficit, sumTradeUsd] at this
      simp only [this]
      ring
    · simp only [sumDeficit, sumTradeUsd, List.map_cons, List.sum_cons]
      have := ih { over with excessUsd := over.excessUsd - min over.excessUsd under.deficitUsd }
      simp only [sumDeficit, sumTradeUsd] at this
      simp only [this]
      ring

theorem matchUnders_nonneg (m : ℚ) (over : OverweightEntry)
    (unders : List UnderweightEntry)
    (hover : 0 ≤ over.excessUsd)
    (hunders : ∀ u ∈ unders, 0 ≤ u.deficitUsd) :
    0 ≤ (matchUnders m over unders).1.excessUsd
    ∧ (∀ u ∈ (matchUnders m over unders).2.1, 0 ≤ u.deficitUsd)
    ∧ (∀ a ∈ (matchUnders m over unders).2.2, 0 ≤ a.tradeUsd) := by
  induction unders generalizing over with
  | nil =>
    simp [matchUnders]
    exact hover
  | cons under rest ih =>
    have hu : 0 ≤ under.deficitUsd := hunders under (List.mem_cons_self under rest)
    have hrest : ∀ u ∈ rest, 0 ≤ u.deficitUsd :=
      fun u hu2 => hunders u (List.mem_cons_of_mem under hu2)
    rw [matchUnders]
    split_ifs with h
    · obtain ⟨h1, h2, h3⟩ := ih over hover hrest
      refine ⟨h1, ?_, h3⟩
      intro u hmem
      rcases List.mem_cons.mp hmem with rfl | hmem2
      · exact hu
      · exact h2 u hmem2
    · have htle : min over.excessUsd under.deficitUsd ≤ over.excessUsd := min_le_left _ _
      have htnn : 0 ≤ min over.excessUsd under.deficitUsd := le_min hover hu
      obtain ⟨h1, h2, h3⟩ :=
        ih { over with excessUsd := over.excessUsd - min over.excessUsd under.deficitUsd }
          (by dsimp only; linarith) hrest
      refine ⟨h1, ?_, ?_⟩
      · intro u hmem
        rcases List.mem_cons.mp hmem with rfl | hmem2
        · dsimp only
          have : min over.excessUsd under.deficitUsd ≤ under.deficitUsd := min_le_right _ _
          linarith
        · exact h2 u hmem2
      · intro a hmem
        rcases List.mem_cons.mp hmem with rfl | hmem2
        · exact htnn
        · exact h3 a hmem2

theorem matchUnders_minTrade (m : ℚ) (over : OverweightEntry)
    (unders : List UnderweightEntry) :
    ∀ a ∈ (matchUnders m over unders).2.2, m ≤ a.tradeUsd := by
  induction unders generalizing over with
  | nil => simp [matchUnders]
  | cons under rest ih =>
    rw [matchUnders]
    split_ifs with h
    · exact ih over
    · push_neg at h
      intro a hmem
      rcases List.mem_cons.mp hmem with rfl | hmem2
      · exact le_min h.1 h.2
      · exact ih _ a hmem2

theorem matchOvers_deficit (m : ℚ) (overs : List OverweightEntry)
    (unders : List UnderweightEntry) :
    sumDeficit (matchOvers m overs unders).1
      = sumDeficit unders - sumTradeUsd (matchOvers m overs unders).2 := by
  induction overs generalizing unders with
  | nil => simp [matchOvers, sumTradeUsd]
  | cons over rest ih =>
    rw [matchOvers]
    simp only [sumTradeUsd, List.map_append, List.sum_append]
    have h1 := matchUnders_deficit m over unders
    have h2 := ih (matchUnders m over unders).2.1
    simp only [sumTradeUsd] at h1 h2 ⊢
    rw [h2, h1]
    ring

theorem matchOvers_nonneg (m : ℚ) (overs : List OverweightEntry)
    (unders : List UnderweightEntry)
    (hovers : ∀ o ∈ overs, 0 ≤ o.excessUsd)
    (hunders : ∀ u ∈ unders, 0 ≤ u.deficitUsd) :
    (∀ u ∈ (matchOvers m overs unders).1, 0 ≤ u.deficitUsd)
    ∧ (∀ a ∈ (matchOvers m overs unders).2, 0 ≤ a.tradeUsd) := by
  induction overs generalizing unders with
  | nil =>
    simp only [matchOvers]
    exact ⟨hunders, by simp⟩
  | cons over rest ih =>
    have hover : 0 ≤ over.excessUsd := hovers over (List.mem_cons_self over rest)
    have hrest : ∀ o ∈ rest, 0 ≤ o.excessUsd :=
      fun o ho => hovers o (List.mem_cons_of_mem over ho)
    obtain ⟨_, h2, h3⟩ := matchUnders_nonneg m over unders hover hunders
    obtain ⟨h4, h5⟩ := ih (matchUnders m over unders).2.1 hrest h2
    rw [matchOvers]
    refine ⟨h4, ?_⟩
    intro a hmem
    rcases List.mem_append.mp hmem with hmem2 | hmem2
    · exact h3 a hmem2
    · exact h5 a hmem2

theorem matchOvers_le_excess (m : ℚ) (overs : List OverweightEntry)
    (unders : List UnderweightEntry)
    (hovers : ∀ o ∈ overs, 0 ≤ o.excessUsd)
    (hunders : ∀ u ∈ unders, 0 ≤ u.deficitUsd) :
    sumTradeUsd (matchOvers m overs unders).2 ≤ sumExcess overs := by
  induction overs generalizing unders with
  | nil => simp [matchOvers, sumTradeUsd, sumExcess]
  | cons over rest ih =>
    have hover : 0 ≤ over.excessUsd := hovers over (List.mem_cons_self over rest)
    have hrest : ∀ o ∈ rest, 0 ≤ o.excessUsd :=
      fun o ho => hovers o (List.mem_cons_of_mem over ho)
    obtain ⟨h1, h2, _⟩ := matchUnders_nonneg m over unders hover hunders
    have hexcess := matchUnders_excess m over unders
    have hinner : sumTradeUsd (matchUnders m over unders).2.2 ≤ over.excessUsd := by
      linarith [h1, hexcess.symm.le]
    have houter := ih (matchUnders m over unders).2.1 hrest h2
    rw [matchOvers]
    simp only [sumTradeUsd, List.map_append, List.sum_append, sumExcess,
      List.map_cons, List.sum_cons]
    simp only [sumTradeUsd, sumExcess] at hinner houter
    linarith

theorem matchOvers_minTrade (m : ℚ) (overs : List OverweightEntry)
    (unders : List UnderweightEntry) :
    ∀ a ∈ (matchOvers m overs unders).2, m ≤ a.tradeUsd := by
  induction overs generalizing unders with
  | nil => simp [matchOvers]
  | cons over rest ih =>
    rw [matchOvers]
    intro a hmem
    rcases List.mem_append.mp hmem with hmem2 | hmem2
    · exact matchUnders_minTrade m over unders a hmem2
    · exact ih _ a hmem2

theorem findOverUnder_over_spec (ta : List (String × ℚ)) (state : PortfolioState)
    (th m : ℚ) :
    ∀ o ∈ (findOverUnder ta state th m).1,
      m < o.excessUsd ∧ ∃ tp, (o.symbol, tp) ∈ ta
        ∧ currentPctOf state o.symbol - tp > th := by
  induction ta with
  | nil => simp [findOverUnder]
  | cons head rest ih =>
    obtain ⟨symbol, targetPct⟩ := head
    intro o ho
    rw [findOverUnder] at ho
    split_ifs at ho with h1 h2
    · cases hti : TOKEN_INFO symbol with
      | some info =>
        rw [hti] at ho
        rcases List.mem_cons.mp ho with rfl | ho2
        · exact ⟨h1.1, targetPct, List.mem_cons_self _ _, h1.2⟩
        · obtain ⟨hm2, tp, htp, hdev⟩ := ih o ho2
          exact ⟨hm2, tp, List.mem_cons_of_mem _ htp, hdev⟩
      | none =>
        rw [hti] at ho
        obtain ⟨hm2, tp, htp, hdev⟩ := ih o ho
        exact ⟨hm2, tp, List.mem_cons_of_mem _ htp, hdev⟩
    · cases hti : TOKEN_INFO symbol with
      | some info =>
        rw [hti] at ho
        obtain ⟨hm2, tp, htp, hdev⟩ := ih o ho
        exact ⟨hm2, tp, List.mem_cons_of_mem _ htp, hdev⟩
      | none =>
        rw [hti] at ho
        obtain ⟨hm2, tp, htp, hdev⟩ := ih o ho
        exact ⟨hm2, tp, List.mem_cons_of_mem _ htp, hdev⟩
    · obtain ⟨hm2, tp, htp, hdev⟩ := ih o ho
      exact ⟨hm2, tp, List.mem_cons_of_mem _ htp, hdev⟩

theorem findOverUnder_under_spec (ta : List (String × ℚ)) (state : PortfolioState)
    (th m : ℚ) :
    ∀ u ∈ (findOverUnder ta state th m).2,
      m < u.deficitUsd ∧ ∃ tp, (u.symbol, tp) ∈ ta
        ∧ tp - currentPctOf state u.symbol > th := by
  induction ta with
  | nil => simp [findOverUnder]
  | cons head rest ih =>
    obtain ⟨symbol, targetPct⟩ := head
    intro u hu
    rw [findOverUnder] at hu
    split_ifs at hu with h1 h2
    · cases hti : TOKEN_INFO symbol with
      | some info =>
        rw [hti] at hu
        obtain ⟨hm2, tp, htp, hdev⟩ := ih u hu
        exact ⟨hm2, tp, List.mem_cons_of_mem _ htp, hdev⟩
      | none =>
        rw [hti] at hu
        obtain ⟨hm2, tp, htp, hdev⟩ := ih u hu
        exact ⟨hm2, tp, List.mem_cons_of_mem _ htp, hdev⟩
    · cases hti : TOKEN_INFO symbol with
      | some info =>
        rw [hti] at hu
        rcases List.mem_cons.mp hu with rfl | hu2
        · refine ⟨by dsimp only; linarith [h2.1], targetPct,
            List.mem_cons_self _ _, h2.2⟩
        · obtain ⟨hm2, tp, htp, hdev⟩ := ih u hu2
          exact ⟨hm2, tp, List.mem_cons_of_mem _ htp, hdev⟩
      | none =>
        rw [hti] at hu
        obtain ⟨hm2, tp, htp, hdev⟩ := ih u hu
        exact ⟨hm2, tp, List.mem_cons_of_mem _ htp, hdev⟩
    · obtain ⟨hm2, tp, htp, hdev⟩ := ih u hu
      exact ⟨hm2, tp, List.mem_cons_of_mem _ htp, hdev⟩

theorem sumDeficit_nonneg (l : List UnderweightEntry)
    (h : ∀ u ∈ l, 0 ≤ u.deficitUsd) : 0 ≤ sumDeficit l := by
  apply List.sum_nonneg
  intro x hx
  simp only [List.mem_map] at hx
  obtain ⟨u, hu, rfl⟩ := hx
  exact h u hu

/-- C6: the greedy overweight/underweight matcher conserves value: the
sum of the matched trade sizes min(remaining excess, remaining deficit)
over all emitted rebalance actions never exceeds the total overweight
excess, nor the total underweight deficit, for every portfolio state and
target allocation (minTrade nonnegative, as the 0.50 default is). -/
theorem C6_matching_conserves_value (targetAllocation : List (String × ℚ))
    (state : PortfolioState) (threshold minTrade : ℚ) (hm : 0 ≤ minTrade) :
    sumTradeUsd (calculateRebalanceActions targetAllocation state threshold minTrade)
      ≤ sumExcess (findOverUnder targetAllocation state threshold minTrade).1
    ∧ sumTradeUsd (calculateRebalanceActions targetAllocation state threshold minTrade)
      ≤ sumDeficit (findOverUnder targetAllocation state threshold minTrade).2 := by
  have hovers : ∀ o ∈ (findOverUnder targetAllocation state threshold minTrade).1,
      0 ≤ o.excessUsd := by
    intro o ho
    have := (findOverUnder_over_spec targetAllocation state threshold minTrade o ho).1
    linarith
  have hunders : ∀ u ∈ (findOverUnder targetAllocation state threshold minTrade).2,
      0 ≤ u.deficitUsd := by
    intro u hu
    have := (findOverUnder_under_spec targetAllocation state threshold minTrade u hu).1
    linarith
  constructor
  · exact matchOvers_le_excess minTrade _ _ hovers hunders
  · have hdef := matchOvers_deficit minTrade
      (findOverUnder targetAllocation state threshold minTrade).1
      (findOverUnder targetAllocation state threshold minTrade).2
    have hnn := (matchOvers_nonneg minTrade
      (findOverUnder targetAllocation state threshold minTrade).1
      (findOverUnder targetAllocation state threshold minTrade).2 hovers hunders).1
    have hfinal := sumDeficit_nonneg _ hnn
    unfold calculateRebalanceActions
    linarith

/-- A concrete state for the C6 witness: SOL is 30 points overweight and
USDC 30 points underweight against an even split. -/
def stateC6 : PortfolioState :=
  { totalValueUsd := 1000,
    holdings :=
      [ { symbol := "SOL", mint := "So11111111111111111111111111111111111111112",
          amount := 4, valueUsd := 800, percentage := 80 },
        { symbol := "USDC", mint := "EPjFWdd5AufqSSqeM2qN1xzybapC8G4wEGGkZwyTDt1v",
          amount := 200, valueUsd := 200, percentage := 20 } ] }

/-- C6 witness: the conservation bounds instantiated at stateC6 with the
default 0.50 minimum trade. -/
theorem C6_matching_conserves_value_witness :
    sumTradeUsd (calculateRebalanceActions [("SOL", 50), ("USDC", 50)] stateC6 5 (1 / 2))
      ≤ sumExcess (findOverUnder [("SOL", 50), ("USDC", 50)] stateC6 5 (1 / 2)).1
    ∧ sumTradeUsd (calculateRebalanceActions [("SOL", 50), ("USDC", 50)] stateC6 5 (1 / 2))
      ≤ sumDeficit (findOverUnder [("SOL", 50), ("USDC", 50)] stateC6 5 (1 / 2)).2 :=
  C6_matching_conserves_value [("SOL", 50), ("USDC", 50)] stateC6 5 (1 / 2)
    (by norm_num)

theorem planC3_trades :
    (createExecutionPlan portfolioC3 strategyC3 DEFAULT_CONFIG).trades =
      [{ type := "swap", fromAsset := some COMMON_TOKENS.USDC,
         toAsset := COMMON_TOKENS.SOL, amountUsd := 100, priority := 0,
         reason := "Increase SOL allocation" }] := by
  unfold createExecutionPlan portfolioC3 mkPortfolio strategyC3 DEFAULT_CONFIG
    stablecoinMints
  simp only [List.filter_cons, List.filter_nil, List.contains,
    COMMON_TOKENS.USDC, COMMON_TOKENS.USDT, COMMON_TOKENS.SOL,
    COMMON_TOKENS.WBTC]
  simp
  norm_num

/-- C3 (amended): every PlannedTrade of createExecutionPlan has
amountUsd at least the configured minTradeSize; but createExecutionPlan
never consults the rebalance threshold, so the threshold half only holds
for calculateRebalanceActions, where an entry joins the partition only
when its deviation exceeds the threshold and its dollar imbalance
exceeds minTrade, and every emitted action's matched size is at least
minTrade. -/
theorem C3_min_size_and_threshold :
    (∀ (portfolio : Portfolio) (strategy : StrategyDefinition)
       (config : PortfolioBuilderConfig),
       ∀ t ∈ (createExecutionPlan portfolio strategy config).trades,
         config.minTradeSize ≤ t.amountUsd)
    ∧ (∀ (ta : List (String × ℚ)) (state : PortfolioState) (th m : ℚ),
        ∀ o ∈ (findOverUnder ta state th m).1,
          m < o.excessUsd ∧ ∃ tp, (o.symbol, tp) ∈ ta
            ∧ currentPctOf state o.symbol - tp > th)
    ∧ (∀ (ta : List (String × ℚ)) (state : PortfolioState) (th m : ℚ),
        ∀ u ∈ (findOverUnder ta state th m).2,
          m < u.deficitUsd ∧ ∃ tp, (u.symbol, tp) ∈ ta
            ∧ tp - currentPctOf state u.symbol > th)
    ∧ (∀ (ta : List (String × ℚ)) (state : PortfolioState) (th m : ℚ),
        ∀ a ∈ calculateRebalanceActions ta state th m, m ≤ a.tradeUsd) :=
  ⟨createExecutionPlan_minTradeSize,
   findOverUnder_over_spec,
   findOverUnder_under_spec,
   fun _ _ _ m => matchOvers_minTrade m _ _⟩

/-- C3 witness: the minimum-size bound instantiated at the concrete plan
of portfolioC3, whose single trade has amountUsd 100 at least the
default minTradeSize of 10. -/
theorem C3_min_size_witness :
    DEFAULT_CONFIG.minTradeSize ≤
      ({ type := "swap", fromAsset := some COMMON_TOKENS.USDC,
         toAsset := COMMON_TOKENS.SOL, amountUsd := 100, priority := 0,
         reason := "Increase SOL allocation" } : PlannedTrade).amountUsd :=
  C3_min_size_and_threshold.1 portfolioC3 strategyC3 DEFAULT_CONFIG _
    (by rw [planC3_trades]; exact List.mem_singleton.mpr rfl)

-- ============================================================================
-- sdk/trading.ts: the swap execution pipeline (executeSwap)
-- ============================================================================

/-- SwapParams of sdk/types.ts. -/
structure SwapParams where
  inputMint : String
  outputMint : String
  amount : ℚ
  slippageBps : ℚ
  userPublicKey : String
deriving DecidableEq, Repr

/-- SwapResult of sdk/types.ts. -/
structure SwapResult where
  signature : String
  inputMint : String
  outputMint : String
  inputAmount : ℚ
  outputAmount : ℚ
  status : String
  error : Option String
deriving DecidableEq, Repr

/-- Token metadata resolved by the market client. -/
structure TokenInfo where
  mint : String
  decimals : ℕ
deriving DecidableEq, Repr

/-- The fields of the accepted quote the pipeline reads afterwards. -/
structure QuoteData where
  outAmount : ℚ
deriving DecidableEq, Repr

/-- SwapEnv: the outcome of each awaited external call inside
executeSwap, in the order the source performs them.  Except.error models
a thrown JS exception carrying its message (getSwapQuote and
getSwapInstructions rethrow fetch and HTTP errors; sign and send throw
on rejection); getToken resolves to an optional token; the confirm field
carries confirmation.value.err (some err = executed but reverted). -/
structure SwapEnv where
  inputToken : Except String (Option TokenInfo)
  outputToken : Except String (Option TokenInfo)
  quote : Except String QuoteData
  instructions : Except String Unit
  buildTransaction : Except String Unit
  signTransaction : Except String Unit
  sendRawTransaction : Except String String
  confirmTransaction : Except String (Option String)

/-- The body of the try block of executeSwap: stages run in order, the
first thrown error aborts the chain; a reported confirmation error
returns a failed SwapResult with the signature; otherwise a success
result whose outputAmount is read from the accepted quote. -/
def executeSwapExcept (params : SwapParams) (env : SwapEnv) :
    Except String SwapResult :=
  match env.inputToken with
  | Except.error e => Except.error e
  | Except.ok inputToken =>
  match env.outputToken with
  | Except.error e => Except.error e
  | Except.ok outputToken =>
  match inputToken, outputToken with
  | some _, some outputTokenInfo =>
    (match env.quote with
     | Except.error e => Except.error e
     | Except.ok quote =>
     match env.instructions with
     | Except.error e => Except.error e
     | Except.ok _ =>
     match env.buildTransaction with
     | Except.error e => Except.error e
     | Except.ok _ =>
     match env.signTransaction with
     | Except.error e => Except.error e
     | Except.ok _ =>
     match env.sendRawTransaction with
     | Except.error e => Except.error e
     | Except.ok signature =>
     match env.confirmTransaction with
     | Except.error e => Except.error e
     | Except.ok confirmErr =>
     match confirmErr with
     | some err =>
       Except.ok
         { signature := signature
           inputMint := params.inputMint
           outputMint := params.outputMint
           inputAmount := params.amount
           outputAmount := 0
           status := "failed"
           error := some ("Transaction failed: " ++ err) }
     | none =>
       Except.ok
         { signature := signature
           inputMint := params.inputMint
           outputMint := params.outputMint
           inputAmount := params.amount
           outputAmount := quote.outAmount / 10 ^ outputTokenInfo.decimals
           status := "success"
           error := none })
  | _, _ => Except.error "Could not resolve token info"

/-- executeSwap: the catch handler turns any thrown stage error into a
failed SwapResult with an empty signature. -/
def executeSwap (params : SwapParams) (env : SwapEnv) : SwapResult :=
  match executeSwapExcept params env with
  | Except.ok r => r
  | Except.error e =>
    { signature := "", inputMint := params.inputMint,
      outputMint := params.outputMint, inputAmount := params.amount,
      outputAmount := 0, status := "failed", error := some e }

/-- All stages of the pipeline succeed: both tokens resolve, the quote,
instruction fetch, build, sign and broadcast calls return, and the
confirmation reports no on-chain error. -/
def envAllOk (env : SwapEnv) : Prop :=
  (∃ a, env.inputToken = Except.ok (some a))
  ∧ (∃ b, env.outputToken = Except.ok (some b))
  ∧ (∃ q, env.quote = Except.ok q)
  ∧ env.instructions = Except.ok ()
  ∧ env.buildTransaction = Except.ok ()
  ∧ env.signTransaction = Except.ok ()
  ∧ (∃ s, env.sendRawTransaction = Except.ok s)
  ∧ env.confirmTransaction = Except.ok none

theorem executeSwap_success_iff (params : SwapParams) (env : SwapEnv) :
    (executeSwap params env).status = "success" ↔ envAllOk env := by
  obtain ⟨it, ot, q, ins, bt, st, sd, cf⟩ := env
  unfold executeSwap executeSwapExcept envAllOk
  rcases it with e | it
  · simp
  rcases ot with e | ot
  · rcases it with _ | t1 <;> simp
  rcases it with _ | t1
  · rcases ot with _ | t2 <;> simp
  rcases ot with _ | t2
  · simp
  rcases q with e | q
  · simp
  rcases ins with e | u1
  · simp
  rcases bt with e | u2
  · simp
  rcases st with e | u3
  · simp
  rcases sd with e | sg
  · simp
  rcases cf with e | cf
  · simp
  rcases cf with _ | ce <;> simp

theorem executeSwap_failed_error (params : SwapParams) (env : SwapEnv) :
    (executeSwap params env).status = "success"
    ∨ ((executeSwap params env).status = "failed"
        ∧ (executeSwap params env).error.isSome = true) := by
  obtain ⟨it, ot, q, ins, bt, st, sd, cf⟩ := env
  unfold executeSwap executeSwapExcept
  rcases it with e | it
  · simp
  rcases ot with e | ot
  · rcases it with _ | t1 <;> simp
  rcases it with _ | t1
  · rcases ot with _ | t2 <;> simp
  rcases ot with _ | t2
  · simp
  rcases q with e | q
  · simp
  rcases ins with e | u1
  · simp
  rcases bt with e | u2
  · simp
  rcases st with e | u3
  · simp
  rcases sd with e | sg
  · simp
  rcases cf with e | cf
  · simp
  rcases cf with _ | ce <;> simp

-- ============================================================================
-- PortfolioBuilderAgent.executeAllocation: result aggregation
-- ============================================================================

/-- JS truthiness of an optional string (undefined and the empty string
are falsy), as tested by the trade.fromAsset guard. -/
def truthy : Option String → Bool
  | none => false
  | some s => s != ""

/-- What one executeSwapTrade invocation did, as observed by the loop in
executeAllocation: it either returned a SwapResult (executeSwap catches
its own stage failures and always returns) or threw (for example from
the price lookup inside executeSwapTrade), which the loop's catch
converts into a failed step. -/
inductive TradeOutcome where
  | returned (r : SwapResult)
  | threw (msg : String)
deriving DecidableEq, Repr

/-- ExecutionStep of sdk/types.ts. -/
structure ExecutionStep where
  type : String
  asset : String
  amountUsd : ℚ
  percentage : ℚ
  status : String
  result : Option SwapResult
  error : Option String
deriving DecidableEq, Repr

/-- The summary block of an ExecutionResult. -/
structure ExecutionSummary where
  totalTradesAttempted : ℕ
  totalTradesCompleted : ℕ
  totalValueTraded : ℚ
  errors : List String
deriving DecidableEq, Repr

/-- ExecutionResult of sdk/types.ts. -/
structure ExecutionResult where
  status : String
  steps : List ExecutionStep
  summary : ExecutionSummary
  portfolio : Option Portfolio
deriving DecidableEq, Repr

/-- One iteration of the trade loop of executeAllocation: build the step
in the executing state, then the swap branch (completed on success,
failed with the result error otherwise), the stock branch (always
failed: not implemented) or no branch at all; a thrown error is caught
and recorded.  Returns the step, the error strings pushed, and the
amount added to totalValueTraded. -/
def executeTradeStep (totalValueUsd : ℚ) (trade : PlannedTrade)
    (outcome : TradeOutcome) : ExecutionStep × List String × ℚ :=
  let step0 : ExecutionStep :=
    { type := trade.type, asset := trade.toAsset, amountUsd := trade.amountUsd,
      percentage := trade.amountUsd / totalValueUsd * 100,
      status := "executing", result := none, error := none }
  if trade.type = "swap" ∧ truthy trade.fromAsset then
    match outcome with
    | TradeOutcome.returned result =>
      let step1 :=
        { step0 with
          result := some result
          status := if result.status = "success" then "completed" else "failed" }
      if result.status = "success" then
        (step1, [], trade.amountUsd)
      else
        match result.error with
        | some e =>
          ({ step1 with error := some e }, [trade.type ++ " failed: " ++ e], 0)
        | none => (step1, [], 0)
    | TradeOutcome.threw msg =>
      ({ step0 with status := "failed", error := some msg },
       ["Trade failed: " ++ msg], 0)
  else if trade.type = "stock_buy" ∨ trade.type = "stock_sell" then
    ({ step0 with
       status := "failed"
       error := some "Stock trading not yet implemented" },
     ["Stock trading not yet implemented"], 0)
  else
    (step0, [], 0)

/-- The serial loop over the sorted trades; the oracle gives the outcome
of the i-th swap invocation. -/
def runTrades (totalValueUsd : ℚ) (oracle : ℕ → TradeOutcome) :
    List PlannedTrade → ℕ → List ExecutionStep × List String × ℚ
  | [], _ => ([], [], 0)
  | trade :: rest, i =>
    let s := executeTradeStep totalValueUsd trade (oracle i)
    let r := runTrades totalValueUsd oracle rest (i + 1)
    (s.1 :: r.1, s.2.1 ++ r.2.1, s.2.2 + r.2.2)

/-- Stable insertion of a trade before the first element of not smaller
priority. -/
def insertByPriority (t : PlannedTrade) : List PlannedTrade → List PlannedTrade
  | [] => [t]
  | u :: us =>
    if t.priority ≤ u.priority then t :: u :: us else u :: insertByPriority t us

/-- The stable ascending sort by the numeric priority comparator
([...plan.trades].sort((a, b) => a.priority - b.priority)). -/
def sortTradesByPriority : List PlannedTrade → List PlannedTrade
  | [] => []
  | t :: ts => insertByPriority t (sortTradesByPriority ts)

/-- executeAllocation, after the plan has been built: the empty-plan
return, the dry-run return (all steps pending, nothing executed), or the
serial execution path with the rolled-up status.  The oracle supplies
each trade's pipeline outcome and finalPortfolio the refreshed portfolio
fetched after the loop. -/
def executeAllocation (plan : ExecutionPlan) (config : PortfolioBuilderConfig)
    (oracle : ℕ → TradeOutcome) (finalPortfolio : Portfolio) : ExecutionResult :=
  if plan.trades.length = 0 then
    { status := "success", steps := [],
      summary := { totalTradesAttempted := 0, totalTradesCompleted := 0,
                   totalValueTraded := 0, errors := [] },
      portfolio := some plan.currentPortfolio }
  else if config.dryRun then
    { status := "success",
      steps := plan.trades.map (fun t =>
        { type := t.type, asset := t.toAsset, amountUsd := t.amountUsd,
          percentage := t.amountUsd / plan.currentPortfolio.totalValueUsd * 100,
          status := "pending", result := none, error := none }),
      summary := { totalTradesAttempted := plan.trades.length,
                   totalTradesCompleted := 0,
                   totalValueTraded := plan.totalTradeValueUsd,
                   errors := ["Dry run mode - no trades executed"] },
      portfolio := some plan.currentPortfolio }
  else
    let sortedTrades := sortTradesByPriority plan.trades
    let r := runTrades plan.currentPortfolio.totalValueUsd oracle sortedTrades 0
    let completedSteps := (r.1.filter (fun s => s.status = "completed")).length
    { status := if completedSteps = r.1.length then "success"
                else if completedSteps > 0 then "partial" else "failed",
      steps := r.1,
      summary := { totalTradesAttempted := r.1.length,
                   totalTradesCompleted := completedSteps,
                   totalValueTraded := r.2.2,
                   errors := r.2.1 },
      portfolio := some finalPortfolio }

/-- Number of steps of a result with status completed. -/
def completedCount (r : ExecutionResult) : ℕ :=
  (r.steps.filter (fun s => s.status = "completed")).length

theorem insertByPriority_length (t : PlannedTrade) (l : List PlannedTrade) :
    (insertByPriority t l).length = l.length + 1 := by
  induction l with
  | nil => rfl
  | cons u us ih =>
    rw [insertByPriority]
    split_ifs <;> simp [ih]

theorem sortTradesByPriority_length (l : List PlannedTrade) :
    (sortTradesByPriority l).length = l.length := by
  induction l with
  | nil => rfl
  | cons t ts ih =>
    rw [sortTradesByPriority, insertByPriority_length, ih]
    rfl

theorem runTrades_length (v : ℚ) (oracle : ℕ → TradeOutcome)
    (ts : List PlannedTrade) (i : ℕ) :
    (runTrades v oracle ts i).1.length = ts.length := by
  induction ts generalizing i with
  | nil => rfl
  | cons t rest ih => simp [runTrades, ih]

theorem executeTradeStep_amountUsd (v : ℚ) (trade : PlannedTrade)
    (o : TradeOutcome) :
    (executeTradeStep v trade o).1.amountUsd = trade.amountUsd := by
  by_cases hc : trade.type = "swap" ∧ truthy trade.fromAsset = true
  · rcases o with r | msg
    · by_cases hs : r.status = "success"
      · simp [executeTradeStep, hc, hs]
      · cases hr : r.error <;> simp [executeTradeStep, hc, hs, hr]
    · simp [executeTradeStep, hc]
  · by_cases hst : trade.type = "stock_buy" ∨ trade.type = "stock_sell" <;>
      rcases o with r | msg <;>
      simp [executeTradeStep, hc, hst]

theorem executeTradeStep_value (v : ℚ) (trade : PlannedTrade)
    (o : TradeOutcome) :
    (executeTradeStep v trade o).2.2
      = (if (executeTradeStep v trade o).1.status = "completed"
         then (executeTradeStep v trade o).1.amountUsd else 0) := by
  by_cases hc : trade.type = "swap" ∧ truthy trade.fromAsset = true
  · rcases o with r | msg
    · by_cases hs : r.status = "success"
      · simp [executeTradeStep, hc, hs]
      · cases hr : r.error <;> simp [executeTradeStep, hc, hs, hr]
    · simp [executeTradeStep, hc]
  · by_cases hst : trade.type = "stock_buy" ∨ trade.type = "stock_sell" <;>
      rcases o with r | msg <;>
      simp [executeTradeStep, hc, hst]

theorem runTrades_value (v : ℚ) (oracle : ℕ → TradeOutcome)
    (ts : List PlannedTrade) (i : ℕ) :
    (runTrades v oracle ts i).2.2
      = (((runTrades v oracle ts i).1.filter
            (fun s => s.status = "completed")).map (fun s => s.amountUsd)).sum := by
  induction ts generalizing i with
  | nil => simp [runTrades]
  | cons t rest ih =>
    rw [runTrades]
    have hv := executeTradeStep_value v t (oracle i)
    by_cases hs : (executeTradeStep v t (oracle i)).1.status = "completed"
    · rw [hv, if_pos hs]
      simp [List.filter_cons, hs, ih (i + 1)]
    · rw [hv, if_neg hs]
      simp [List.filter_cons, hs, ih (i + 1)]

theorem runTrades_get (v : ℚ) (oracle : ℕ → TradeOutcome)
    (ts : List PlannedTrade) (i j : ℕ) (h : j < ts.length)
    (h2 : j < (runTrades v oracle ts i).1.length) :
    (runTrades v oracle ts i).1.get ⟨j, h2⟩
      = (executeTradeStep v (ts.get ⟨j, h⟩) (oracle (i + j))).1 := by
  induction ts generalizing i j with
  | nil => exact absurd h (Nat.not_lt_zero j)
  | cons t rest ih =>
    cases j with
    | zero => simp [runTrades]
    | succ k =>
      have hk : k < rest.length := Nat.lt_of_succ_lt_succ h
      have hk2 : k < (runTrades v oracle rest (i + 1)).1.length := by
        rw [runTrades_length]
        exact hk
      simp only [runTrades, List.get_cons_succ]
      rw [ih (i + 1) k hk hk2]
      rw [show i + 1 + k = i + (k + 1) from by omega]

theorem status_ite (c n : ℕ) (_hle : c ≤ n) (hpos : 0 < n) :
    (((if c = n then "success" else if c > 0 then "partial" else "failed")
        = "success") ↔ c = n)
    ∧ (((if c = n then "success" else if c > 0 then "partial" else "failed")
        = "failed") ↔ c = 0 ∧ 0 < n)
    ∧ (((if c = n then "success" else if c > 0 then "partial" else "failed")
        = "partial") ↔ c > 0 ∧ c ≠ n) := by
  split_ifs with h1 h2 <;> refine ⟨?_, ?_, ?_⟩ <;> simp_all <;> omega

/-- C1 (amended): with dryRun false (the execution path, and the
empty-plan path in any mode behaves identically), the status is success
iff every attempted step completed, failed iff none completed and at
least one step was attempted, and partial iff some but not all steps
completed.  The dry-run path with a non-empty plan violates the
biconditional (see the counterexample). -/
theorem C1_status_characterization (plan : ExecutionPlan)
    (config : PortfolioBuilderConfig) (oracle : ℕ → TradeOutcome)
    (finalPortfolio : Portfolio) (h : config.dryRun = false) :
    ((executeAllocation plan config oracle finalPortfolio).status = "success"
      ↔ completedCount (executeAllocation plan config oracle finalPortfolio)
          = (executeAllocation plan config oracle finalPortfolio).steps.length)
    ∧ ((executeAllocation plan config oracle finalPortfolio).status = "failed"
      ↔ completedCount (executeAllocation plan config oracle finalPortfolio) = 0
        ∧ 0 < (executeAllocation plan config oracle finalPortfolio).steps.length)
    ∧ ((executeAllocation plan config oracle finalPortfolio).status = "partial"
      ↔ completedCount (executeAllocation plan config oracle finalPortfolio) > 0
        ∧ completedCount (executeAllocation plan config oracle finalPortfolio)
            ≠ (executeAllocation plan config oracle finalPortfolio).steps.length) := by
  by_cases h0 : plan.trades.length = 0
  · simp [executeAllocation, h0, completedCount]
  · unfold executeAllocation
    rw [if_neg h0, if_neg (by simp [h] : ¬ config.dryRun = true)]
    dsimp only
    simp only [completedCount]
    exact status_ite _ _ (List.length_filter_le _ _)
      (by rw [runTrades_length, sortTradesByPriority_length]; omega)

/-- C1 witness: the characterization instantiated at the concrete plan
of portfolioC3 with dryRun disabled and an oracle that always throws. -/
theorem C1_status_characterization_witness :
    ((executeAllocation (createExecutionPlan portfolioC3 strategyC3 DEFAULT_CONFIG)
        { DEFAULT_CONFIG with dryRun := false }
        (fun _ => TradeOutcome.threw "offline") portfolioC3).status = "success"
      ↔ completedCount (executeAllocation (createExecutionPlan portfolioC3 strategyC3 DEFAULT_CONFIG)
          { DEFAULT_CONFIG with dryRun := false }
          (fun _ => TradeOutcome.threw "offline") portfolioC3)
          = (executeAllocation (createExecutionPlan portfolioC3 strategyC3 DEFAULT_CONFIG)
              { DEFAULT_CONFIG with dryRun := false }
              (fun _ => TradeOutcome.threw "offline") portfolioC3).steps.length)
    ∧ ((executeAllocation (createExecutionPlan portfolioC3 strategyC3 DEFAULT_CONFIG)
        { DEFAULT_CONFIG with dryRun := false }
        (fun _ => TradeOutcome.threw "offline") portfolioC3).status = "failed"
      ↔ completedCount (executeAllocation (createExecutionPlan portfolioC3 strategyC3 DEFAULT_CONFIG)
          { DEFAULT_CONFIG with dryRun := false }
          (fun _ => TradeOutcome.threw "offline") portfolioC3) = 0
        ∧ 0 < (executeAllocation (createExecutionPlan portfolioC3 strategyC3 DEFAULT_CONFIG)
            { DEFAULT_CONFIG with dryRun := false }
            (fun _ => TradeOutcome.threw "offline") portfolioC3).steps.length)
    ∧ ((executeAllocation (createExecutionPlan portfolioC3 strategyC3 DEFAULT_CONFIG)
        { DEFAULT_CONFIG with dryRun := false }
        (fun _ => TradeOutcome.threw "offline") portfolioC3).status = "partial"
      ↔ completedCount (executeAllocation (createExecutionPlan portfolioC3 strategyC3 DEFAULT_CONFIG)
          { DEFAULT_CONFIG with dryRun := false }
          (fun _ => TradeOutcome.threw "offline") portfolioC3) > 0
        ∧ completedCount (executeAllocation (createExecutionPlan portfolioC3 strategyC3 DEFAULT_CONFIG)
            { DEFAULT_CONFIG with dryRun := false }
            (fun _ => TradeOutcome.threw "offline") portfolioC3)
            ≠ (executeAllocation (createExecutionPlan portfolioC3 strategyC3 DEFAULT_CONFIG)
                { DEFAULT_CONFIG with dryRun := false }
                (fun _ => TradeOutcome.threw "offline") portfolioC3).steps.length) :=
  C1_status_characterization (createExecutionPlan portfolioC3 strategyC3 DEFAULT_CONFIG)
    { DEFAULT_CONFIG with dryRun := false }
    (fun _ => TradeOutcome.threw "offline") portfolioC3 rfl

/-- C1 counterexample: with dryRun enabled and the non-empty concrete
plan of portfolioC3, the returned status is success although zero of the
one attempted step completed — the claimed biconditional (failed iff no
step completed and at least one attempted) fails on the dry-run path. -/
theorem C1_counterexample :
    (executeAllocation (createExecutionPlan portfolioC3 strategyC3 DEFAULT_CONFIG)
        DEFAULT_CONFIG (fun _ => TradeOutcome.threw "offline") portfolioC3).status
      = "success"
    ∧ completedCount (executeAllocation (createExecutionPlan portfolioC3 strategyC3 DEFAULT_CONFIG)
        DEFAULT_CONFIG (fun _ => TradeOutcome.threw "offline") portfolioC3) = 0
    ∧ (executeAllocation (createExecutionPlan portfolioC3 strategyC3 DEFAULT_CONFIG)
        DEFAULT_CONFIG (fun _ => TradeOutcome.threw "offline") portfolioC3).steps.length = 1
    ∧ (executeAllocation (createExecutionPlan portfolioC3 strategyC3 DEFAULT_CONFIG)
        DEFAULT_CONFIG (fun _ => TradeOutcome.threw "offline") portfolioC3).status
      ≠ "failed" := by
  unfold executeAllocation
  rw [planC3_trades]
  simp [completedCount, DEFAULT_CONFIG]

theorem executeAllocation_dryRun (plan : ExecutionPlan)
    (config : PortfolioBuilderConfig) (oracle : ℕ → TradeOutcome)
    (finalPortfolio : Portfolio) (hd : config.dryRun = true)
    (hne : ¬ plan.trades.length = 0) :
    executeAllocation plan config oracle finalPortfolio =
      { status := "success",
        steps := plan.trades.map (fun t =>
          { type := t.type, asset := t.toAsset, amountUsd := t.amountUsd,
            percentage := t.amountUsd / plan.currentPortfolio.totalValueUsd * 100,
            status := "pending", result := none, error := none }),
        summary := { totalTradesAttempted := plan.trades.length,
                     totalTradesCompleted := 0,
                     totalValueTraded := plan.totalTradeValueUsd,
                     errors := ["Dry run mode - no trades executed"] },
        portfolio := some plan.currentPortfolio } := by
  unfold executeAllocation
  rw [if_neg hne, if_pos hd]

/-- C4: with dryRun enabled and a non-empty plan, every returned step
has status pending, totalTradesCompleted is 0, and the result is
identical for any two oracles and any two refreshed portfolios — the
swap pipeline (quote, signing, broadcast) is never invoked. -/
theorem C4_dry_run_preview (plan : ExecutionPlan)
    (config : PortfolioBuilderConfig) (o1 o2 : ℕ → TradeOutcome)
    (fp fp2 : Portfolio) (hd : config.dryRun = true)
    (hne : plan.trades ≠ []) :
    (∀ s ∈ (executeAllocation plan config o1 fp).steps, s.status = "pending")
    ∧ (executeAllocation plan config o1 fp).summary.totalTradesCompleted = 0
    ∧ executeAllocation plan config o1 fp = executeAllocation plan config o2 fp2 := by
  have h0 : ¬ plan.trades.length = 0 := by
    simpa [List.length_eq_zero] using hne
  rw [executeAllocation_dryRun plan config o1 fp hd h0,
    executeAllocation_dryRun plan config o2 fp2 hd h0]
  refine ⟨?_, rfl, rfl⟩
  intro s hs
  simp only [List.mem_map] at hs
  obtain ⟨t, ht, rfl⟩ := hs
  rfl

/-- C4 witness: the dry-run guarantees instantiated at the concrete plan
of portfolioC3 under the default configuration (dryRun true), with two
different oracles and refreshed portfolios. -/
theorem C4_dry_run_preview_witness :
    (∀ s ∈ (executeAllocation (createExecutionPlan portfolioC3 strategyC3 DEFAULT_CONFIG)
        DEFAULT_CONFIG (fun _ => TradeOutcome.threw "offline") portfolioC3).steps,
      s.status = "pending")
    ∧ (executeAllocation (createExecutionPlan portfolioC3 strategyC3 DEFAULT_CONFIG)
        DEFAULT_CONFIG (fun _ => TradeOutcome.threw "offline") portfolioC3).summary.totalTradesCompleted = 0
    ∧ executeAllocation (createExecutionPlan portfolioC3 strategyC3 DEFAULT_CONFIG)
        DEFAULT_CONFIG (fun _ => TradeOutcome.threw "offline") portfolioC3
      = executeAllocation (createExecutionPlan portfolioC3 strategyC3 DEFAULT_CONFIG)
          DEFAULT_CONFIG (fun _ => TradeOutcome.returned
            { signature := "sig", inputMint := COMMON_TOKENS.USDC,
              outputMint := COMMON_TOKENS.SOL, inputAmount := 1,
              outputAmount := 1, status := "success", error := none })
          (mkPortfolio [] [] 0) :=
  C4_dry_run_preview (createExecutionPlan portfolioC3 strategyC3 DEFAULT_CONFIG)
    DEFAULT_CONFIG (fun _ => TradeOutcome.threw "offline")
    (fun _ => TradeOutcome.returned
      { signature := "sig", inputMint := COMMON_TOKENS.USDC,
        outputMint := COMMON_TOKENS.SOL, inputAmount := 1,
        outputAmount := 1, status := "success", error := none })
    portfolioC3 (mkPortfolio [] [] 0) rfl
    (by rw [planC3_trades]; exact List.cons_ne_nil _ _)

/-- C5 (amended): with dryRun false, totalValueTraded equals the sum of
amountUsd over exactly the steps whose status is completed (and is 0
when no step completed); with dryRun true and a non-empty plan it is
instead set to the planned total although no step completed (see the
counterexample). -/
theorem C5_value_traded_sum (plan : ExecutionPlan)
    (config : PortfolioBuilderConfig) (oracle : ℕ → TradeOutcome)
    (finalPortfolio : Portfolio) (h : config.dryRun = false) :
    (executeAllocation plan config oracle finalPortfolio).summary.totalValueTraded
      = (((executeAllocation plan config oracle finalPortfolio).steps.filter
            (fun s => s.status = "completed")).map (fun s => s.amountUsd)).sum := by
  by_cases h0 : plan.trades.length = 0
  · simp [executeAllocation, h0]
  · unfold executeAllocation
    rw [if_neg h0, if_neg (by simp [h] : ¬ config.dryRun = true)]
    dsimp only
    exact runTrades_value _ _ _ _

/-- C5 witness: the sum identity instantiated at the concrete plan of
portfolioC3 with dryRun disabled and an oracle that always throws. -/
theorem C5_value_traded_sum_witness :
    (executeAllocation (createExecutionPlan portfolioC3 strategyC3 DEFAULT_CONFIG)
        { DEFAULT_CONFIG with dryRun := false }
        (fun _ => TradeOutcome.threw "offline") portfolioC3).summary.totalValueTraded
      = (((executeAllocation (createExecutionPlan portfolioC3 strategyC3 DEFAULT_CONFIG)
            { DEFAULT_CONFIG with dryRun := false }
            (fun _ => TradeOutcome.threw "offline") portfolioC3).steps.filter
              (fun s => s.status = "completed")).map (fun s => s.amountUsd)).sum :=
  C5_value_traded_sum (createExecutionPlan portfolioC3 strategyC3 DEFAULT_CONFIG)
    { DEFAULT_CONFIG with dryRun := false }
    (fun _ => TradeOutcome.threw "offline") portfolioC3 rfl

theorem createExecutionPlan_totalTradeValue (portfolio : Portfolio)
    (strategy : StrategyDefinition) (config : PortfolioBuilderConfig) :
    (createExecutionPlan portfolio strategy config).totalTradeValueUsd
      = (((createExecutionPlan portfolio strategy config).trades).map
          (fun t => t.amountUsd)).sum := rfl

/-- C5 counterexample: on the dry-run path with the non-empty concrete
plan of portfolioC3, totalValueTraded is 100 (the planned total) while
the sum of amountUsd over completed steps is 0 — no step is completed. -/
theorem C5_counterexample :
    (executeAllocation (createExecutionPlan portfolioC3 strategyC3 DEFAULT_CONFIG)
        DEFAULT_CONFIG (fun _ => TradeOutcome.threw "offline") portfolioC3).summary.totalValueTraded
      = 100
    ∧ (((executeAllocation (createExecutionPlan portfolioC3 strategyC3 DEFAULT_CONFIG)
          DEFAULT_CONFIG (fun _ => TradeOutcome.threw "offline") portfolioC3).steps.filter
            (fun s => s.status = "completed")).map (fun s => s.amountUsd)).sum = 0 := by
  have htv : (createExecutionPlan portfolioC3 strategyC3 DEFAULT_CONFIG).totalTradeValueUsd
      = 100 := by
    rw [createExecutionPlan_totalTradeValue, planC3_trades]
    norm_num
  unfold executeAllocation
  rw [planC3_trades, htv]
  simp [DEFAULT_CONFIG]

theorem executeAllocation_steps_exec (plan : ExecutionPlan)
    (config : PortfolioBuilderConfig) (oracle : ℕ → TradeOutcome)
    (finalPortfolio : Portfolio) (h : config.dryRun = false)
    (h0 : ¬ plan.trades.length = 0) :
    (executeAllocation plan config oracle finalPortfolio).steps
      = (runTrades plan.currentPortfolio.totalValueUsd oracle
          (sortTradesByPriority plan.trades) 0).1 := by
  unfold executeAllocation
  rw [if_neg h0, if_neg (by simp [h] : ¬ config.dryRun = true)]

theorem runTrades_get_opt (v : ℚ) (oracle : ℕ → TradeOutcome)
    (ts : List PlannedTrade) (i j : ℕ) :
    (runTrades v oracle ts i).1.get? j
      = (ts.get? j).map (fun t => (executeTradeStep v t (oracle (i + j))).1) := by
  induction ts generalizing i j with
  | nil => simp [runTrades]
  | cons t rest ih =>
    cases j with
    | zero => simp [runTrades]
    | succ k =>
      simp only [runTrades, List.get?_cons_succ]
      rw [ih (i + 1) k]
      rw [show i + 1 + k = i + (k + 1) from by omega]

/-- C2: stage failures are contained per trade and the aggregator never
halts: (i) whenever any pipeline stage fails (token resolution, quote,
instruction fetch, build, signing, broadcast, or confirmation),
executeSwap returns a SwapResult with status failed and an error message
instead of throwing; (ii) an exception escaping a swap invocation is
caught by the loop and recorded on that step as status failed with the
message as the step error; (iii) a returned non-success SwapResult makes
the step failed carrying the result's error; (iv) with dryRun false the
aggregator produces exactly one step per planned trade; and (v) the j-th
step is exactly the outcome of executing the j-th sorted trade with its
own pipeline outcome, so every remaining trade is executed regardless of
earlier failures. -/
theorem C2_failures_contained :
    (∀ (params : SwapParams) (env : SwapEnv), ¬ envAllOk env →
        (executeSwap params env).status = "failed"
        ∧ (executeSwap params env).error.isSome = true)
    ∧ (∀ (v : ℚ) (trade : PlannedTrade) (msg : String),
        trade.type = "swap" → truthy trade.fromAsset = true →
        (executeTradeStep v trade (TradeOutcome.threw msg)).1.status = "failed"
        ∧ (executeTradeStep v trade (TradeOutcome.threw msg)).1.error = some msg)
    ∧ (∀ (v : ℚ) (trade : PlannedTrade) (result : SwapResult),
        trade.type = "swap" → truthy trade.fromAsset = true →
        result.status ≠ "success" →
        (executeTradeStep v trade (TradeOutcome.returned result)).1.status = "failed"
        ∧ (executeTradeStep v trade (TradeOutcome.returned result)).1.error = result.error)
    ∧ (∀ (plan : ExecutionPlan) (config : PortfolioBuilderConfig)
         (oracle : ℕ → TradeOutcome) (fp : Portfolio),
        config.dryRun = false →
        (executeAllocation plan config oracle fp).steps.length = plan.trades.length)
    ∧ (∀ (plan : ExecutionPlan) (config : PortfolioBuilderConfig)
         (oracle : ℕ → TradeOutcome) (fp : Portfolio) (j : ℕ),
        config.dryRun = false → ¬ plan.trades.length = 0 →
        (executeAllocation plan config oracle fp).steps.get? j
          = ((sortTradesByPriority plan.trades).get? j).map
              (fun t => (executeTradeStep plan.currentPortfolio.totalValueUsd t
                (oracle j)).1)) := by
  refine ⟨?_, ?_, ?_, ?_, ?_⟩
  · intro params env hna
    rcases executeSwap_failed_error params env with hs | hf
    · exact absurd ((executeSwap_success_iff params env).mp hs) hna
    · exact hf
  · intro v trade msg h1 h2
    constructor <;> simp [executeTradeStep, h1, h2]
  · intro v trade result h1 h2 h3
    cases hr : result.error <;>
      constructor <;>
      simp [executeTradeStep, h1, h2, h3, hr]
  · intro plan config oracle fp h
    by_cases h0 : plan.trades.length = 0
    · simp [executeAllocation, h0]
    · rw [executeAllocation_steps_exec plan config oracle fp h h0,
        runTrades_length, sortTradesByPriority_length]
  · intro plan config oracle fp j h h0
    rw [executeAllocation_steps_exec plan config oracle fp h h0,
      runTrades_get_opt]
    simp

/-- Concrete swap parameters for the C2 witness. -/
def paramsW : SwapParams :=
  { inputMint := COMMON_TOKENS.USDC, outputMint := COMMON_TOKENS.SOL,
    amount := 100, slippageBps := 300, userPublicKey := "wallet" }

/-- A pipeline environment whose quote stage throws (no route). -/
def envNoRoute : SwapEnv :=
  { inputToken := Except.ok (some { mint := COMMON_TOKENS.USDC, decimals := 6 }),
    outputToken := Except.ok (some { mint := COMMON_TOKENS.SOL, decimals := 9 }),
    quote := Except.error "Jupiter quote error: 400 - no route",
    instructions := Except.ok (),
    buildTransaction := Except.ok (),
    signTransaction := Except.ok (),
    sendRawTransaction := Except.ok "sig",
    confirmTransaction := Except.ok none }

/-- C2 witness: the containment guarantees instantiated at a concrete
no-route environment and at a concrete thrown error on the planned SOL
trade of portfolioC3. -/
theorem C2_failures_contained_witness :
    ((executeSwap paramsW envNoRoute).status = "failed"
      ∧ (executeSwap paramsW envNoRoute).error.isSome = true)
    ∧ ((executeTradeStep 10000
          { type := "swap", fromAsset := some COMMON_TOKENS.USDC,
            toAsset := COMMON_TOKENS.SOL, amountUsd := 100, priority := 0,
            reason := "Increase SOL allocation" }
          (TradeOutcome.threw "Could not get input token price")).1.status = "failed"
      ∧ (executeTradeStep 10000
          { type := "swap", fromAsset := some COMMON_TOKENS.USDC,
            toAsset := COMMON_TOKENS.SOL, amountUsd := 100, priority := 0,
            reason := "Increase SOL allocation" }
          (TradeOutcome.threw "Could not get input token price")).1.error
        = some "Could not get input token price") :=
  ⟨C2_failures_contained.1 paramsW envNoRoute
      (by
        intro hall
        obtain ⟨-, -, ⟨q, hq⟩, -⟩ := hall
        exact Except.noConfusion hq),
   C2_failures_contained.2.1 10000
      { type := "swap", fromAsset := some COMMON_TOKENS.USDC,
        toAsset := COMMON_TOKENS.SOL, amountUsd := 100, priority := 0,
        reason := "Increase SOL allocation" }
      "Could not get input token price" rfl (by decide)⟩
